import Mathlib

/-!
# Investigation UI (`src/App.js`): a shallow embedding

The React component `App` keeps six `useState` cells and one asynchronous
handler, `handleInvestigate`.  Here the cells are a record, every `setX(v)` is
an assignment to the record, and the handler is cut at its two suspension
points (`await fetch` of the graph walk, `await fetch` of the log search; the
`await response.json()` that follows each fetch changes no state and is folded
into the outcome of the fetch).  The two presentational components,
`GraphDisplay` and `LogViewer`, are functions of their props.
-/

namespace CtiUi

/-! ## JavaScript values -/

/-- An IEEE double as `JSON.parse` can produce it: `±mantissa · 2 ^ exponent`
or an infinity (`1e999`).  Only its truthiness is ever inspected. -/
inductive JSNumber where
  | finite (negative : Bool) (mantissa : Nat) (exponent : Int)
  | infinity (negative : Bool)
  | nan

/-- The values held by the state cells and found inside response bodies:
JSON values, and `undefined` for what a property read of an absent key gives. -/
inductive JSValue where
  | undefined
  | null
  | bool (b : Bool)
  | number (n : JSNumber)
  | string (s : String)
  | array (items : List JSValue)
  | object (fields : List (String × JSValue))

/-- The property names this program reads by name on data.  No built-in
prototype (`Object`, `Array`, `String`, `Number`, `Boolean`) defines any of
them. -/
inductive Field where
  | nodes | edges | id | address | hostname | hash_sha256

/-- The key a `Field` stands for. -/
def Field.key : Field → String
  | .nodes => "nodes"
  | .edges => "edges"
  | .id => "id"
  | .address => "address"
  | .hostname => "hostname"
  | .hash_sha256 => "hash_sha256"

/-- JavaScript `ToBoolean`: `undefined`, `null`, `false`, `±0`, `NaN` and `''`
are falsy, everything else (every array and object included) is truthy. -/
def truthy : JSValue → Bool
  | .undefined => false
  | .null => false
  | .bool b => b
  | .number (.finite _ m _) => m != 0
  | .number (.infinity _) => true
  | .number .nan => false
  | .string s => s != ""
  | .array _ => true
  | .object _ => true

/-- The read `v.f` for a named field: a `TypeError` on `undefined` and `null`,
the own property of an object (`undefined` when the key is absent), and
`undefined` on every other value. -/
def getProp (v : JSValue) (f : Field) : Except String JSValue :=
  match v with
  | .undefined => .error "TypeError: Cannot read properties of undefined"
  | .null => .error "TypeError: Cannot read properties of null"
  | .object fields => .ok ((fields.lookup f.key).getD .undefined)
  | _ => .ok .undefined

/-- The test `v.length > 0`.  The length of an array is its number of items,
that of a string its number of code units (positive exactly when the string is
non-empty); numbers and booleans have no `length`, and `undefined > 0` is
false.  On a plain object `length` is an ordinary key whose value is compared
with `0` by the runtime's relational comparison, passed in as `gtZero`. -/
def lengthGtZero (gtZero : JSValue → Bool) (v : JSValue) : Except String Bool :=
  match v with
  | .undefined => .error "TypeError: Cannot read properties of undefined"
  | .null => .error "TypeError: Cannot read properties of null"
  | .array items => .ok (decide (items.length > 0))
  | .string s => .ok (s != "")
  | .object fields =>
      match fields.lookup "length" with
      | some l => .ok (gtZero l)
      | none => .ok false
  | _ => .ok false

/-! ## `GraphDisplay` -/

/-- The node label function of the Cytoscape stylesheet (line 25), applied to
the data object `ele.data()`:
`data.address || data.hostname || data.hash_sha256 || data.id`. -/
def label (data : JSValue) : Except String JSValue := do
  let address ← getProp data .address
  if truthy address then return address
  let hostname ← getProp data .hostname
  if truthy hostname then return hostname
  let hash ← getProp data .hash_sha256
  if truthy hash then return hash
  getProp data .id

/-- The effect of `GraphDisplay` (lines 15-57).  `mounted` is the truthiness of
`cyRef.current`.  The result is `some elements` when `Cytoscape` is constructed,
with the `elements` option it receives (the `graphData` prop itself), and
`none` when the guard
`graphData.nodes && graphData.nodes.length > 0 && cyRef.current` is falsy. -/
def GraphDisplay (gtZero : JSValue → Bool) (mounted : Bool) (graphData : JSValue) :
    Except String (Option JSValue) := do
  let nodes ← getProp graphData .nodes
  if !truthy nodes then return none
  let positive ← lengthGtZero gtZero nodes
  if !positive then return none
  if !mounted then return none
  return some graphData

/-! ## `LogViewer` -/

/-- What `LogViewer` puts inside `div.log-content`. -/
inductive LogElement where
  | pre (key : JSValue) (text : String)
  | p (text : String)

/-- The text of the placeholder paragraph. -/
def noLogsText : String := "No logs found for this indicator."

/-- One `<pre key={log.id}>{JSON.stringify(log, null, 2)}</pre>`; `stringify`
is `JSON.stringify(·, null, 2)`. -/
def renderLog (stringify : JSValue → String) (log : JSValue) : Except String LogElement := do
  let key ← getProp log .id
  return .pre key (stringify log)

/-- The children of `div.log-content` for an array `logs` (lines 66-70):
`logs.length > 0 ? logs.map(log => <pre …/>) : <p>No logs found…</p>`. -/
def LogViewer (stringify : JSValue → String) (logs : List JSValue) :
    Except String (List LogElement) :=
  if logs.length > 0 then logs.mapM (renderLog stringify)
  else .ok [.p noLogsText]

/-! ## `App`: state and `handleInvestigate` -/

/-- The six `useState` cells of `App` (lines 80-85). -/
structure AppState where
  iocType : String
  iocValue : String
  graphData : JSValue
  logs : JSValue
  isLoading : Bool
  error : String

/-- The literal `{ nodes: [], edges: [] }`. -/
def emptyGraph : JSValue := .object [("nodes", .array []), ("edges", .array [])]

/-- The initial values of the cells. -/
def initialState : AppState :=
  { iocType := "ip", iocValue := "", graphData := emptyGraph, logs := .array [],
    isLoading := false, error := "" }

/-- The two environment constants of lines 6-7, as they interpolate into a
template string. -/
structure Config where
  apiUrl : String
  apiKey : String

/-- A `Response`: its `status`, and how `response.json()` settles (the message
of the rejection, or the parsed body). -/
structure Response where
  status : Nat
  json : Except String JSValue

/-- The getter `response.ok`: the status is in the range 200-299. -/
def Response.ok (r : Response) : Bool := decide (200 ≤ r.status) && decide (r.status ≤ 299)

/-- How a `fetch` settles: rejected with an error of the given `message`
(`""` when the thrown value has none), or fulfilled with a response. -/
abbrev FetchResult := Except String Response

/-- The message set by the validation branch (line 89). -/
def validationMessage : String := "Please enter an indicator value to investigate."

/-- The fallback of line 112. -/
def unknownErrorMessage : String := "An unknown error occurred. Check the console for details."

/-- The URL of line 99. -/
def graphUrl (cfg : Config) (iocType iocValue : String) : String :=
  cfg.apiUrl ++ "/api/graph/walk?type=" ++ iocType ++ "&value=" ++ iocValue ++ "&code=" ++ cfg.apiKey

/-- The URL of line 105. -/
def logsUrl (cfg : Config) (iocValue : String) : String :=
  cfg.apiUrl ++ "/api/logs/search?term=" ++ iocValue ++ "&code=" ++ cfg.apiKey

/-- The message of the `Error` thrown at line 100. -/
def graphFailedMessage (status : Nat) : String :=
  "Graph API failed with status: " ++ toString status

/-- The message of the `Error` thrown at line 106. -/
def logsFailedMessage (status : Nat) : String :=
  "Log Search API failed with status: " ++ toString status

/-- Where a suspended call of `handleInvestigate` waits. -/
inductive Awaiting where
  | graph
  | logs

/-- A suspended call of `handleInvestigate`: the `iocType` and `iocValue` its
closure captured, and the fetch it awaits. -/
structure Invocation where
  iocType : String
  iocValue : String
  awaiting : Awaiting

/-- What one run of the handler between two suspension points does. -/
structure Step where
  state : AppState
  next : Option Invocation
  requests : List String

/-- The `catch` and `finally` blocks (lines 110-115) for an error with the
given message: `setError(err.message || "An unknown…")`, `setIsLoading(false)`. -/
def catchFinally (message : String) (st : AppState) : AppState :=
  { st with error := if message != "" then message else unknownErrorMessage, isLoading := false }

/-- Lines 88-99: from the call up to the first `await`. -/
def handleInvestigateStart (cfg : Config) (st : AppState) : Step :=
  if st.iocValue = "" then
    { state := { st with error := validationMessage }, next := none, requests := [] }
  else
    { state := { st with isLoading := true, error := "", graphData := emptyGraph,
                         logs := .array [] },
      next := some { iocType := st.iocType, iocValue := st.iocValue, awaiting := .graph },
      requests := [graphUrl cfg st.iocType st.iocValue] }

/-- Lines 99-105: the continuation once the graph-walk fetch (and the `json()`
of its response) has settled, run on the state cells as they are then. -/
def resumeGraph (cfg : Config) (inv : Invocation) (res : FetchResult) (st : AppState) : Step :=
  match res with
  | .error message => { state := catchFinally message st, next := none, requests := [] }
  | .ok response =>
    if !response.ok then
      { state := catchFinally (graphFailedMessage response.status) st, next := none,
        requests := [] }
    else
      match response.json with
      | .error message => { state := catchFinally message st, next := none, requests := [] }
      | .ok graphJson =>
        { state := { st with graphData := graphJson },
          next := some { inv with awaiting := .logs },
          requests := [logsUrl cfg inv.iocValue] }

/-- Lines 105-115: the continuation once the log-search fetch (and the `json()`
of its response) has settled. -/
def resumeLogs (res : FetchResult) (st : AppState) : Step :=
  match res with
  | .error message => { state := catchFinally message st, next := none, requests := [] }
  | .ok response =>
    if !response.ok then
      { state := catchFinally (logsFailedMessage response.status) st, next := none,
        requests := [] }
    else
      match response.json with
      | .error message => { state := catchFinally message st, next := none, requests := [] }
      | .ok logsJson =>
        { state := { { st with logs := logsJson } with isLoading := false }, next := none,
          requests := [] }

/-- The continuation of a suspended call when the fetch it awaits settles. -/
def resume (cfg : Config) (inv : Invocation) (res : FetchResult) (st : AppState) : Step :=
  match inv.awaiting with
  | .graph => resumeGraph cfg inv res st
  | .logs => resumeLogs res st

/-- One call of `handleInvestigate` run to completion with nothing else
interleaved: `graph` and `logs` are how its two fetches settle (`logs` is
consulted only if the log search is issued).  The result is the final state
and the URLs fetched, in order. -/
def handleInvestigate (cfg : Config) (graph logs : FetchResult) (st : AppState) :
    AppState × List String :=
  let s₀ := handleInvestigateStart cfg st
  match s₀.next with
  | none => (s₀.state, s₀.requests)
  | some inv₀ =>
    let s₁ := resume cfg inv₀ graph s₀.state
    match s₁.next with
    | none => (s₁.state, s₀.requests ++ s₁.requests)
    | some inv₁ =>
      let s₂ := resume cfg inv₁ logs s₁.state
      (s₂.state, s₀.requests ++ s₁.requests ++ s₂.requests)

/-! ## `App`: events -/

/-- The page while calls of `handleInvestigate` are in flight: the cells, the
calls started so far (`none` once a call has returned), and every URL fetched. -/
structure Page where
  state : AppState
  calls : List (Option Invocation)
  requests : List String

/-- What can happen to the page. -/
inductive Event where
  /-- The `onChange` of the `<select>` (line 125). -/
  | select (iocType : String)
  /-- The `onChange` of the `<input>` (line 133). -/
  | type (iocValue : String)
  /-- The `onKeyPress` of the `<input>` with the key `Enter` (line 135). -/
  | pressEnter
  /-- A click on the `<button disabled={isLoading}>` (line 137). -/
  | clickButton
  /-- The fetch awaited by call number `call` settles. -/
  | settle (call : Nat) (res : FetchResult)

/-- Start a call of `handleInvestigate` on the page. -/
def Page.invoke (cfg : Config) (pg : Page) : Page :=
  let s := handleInvestigateStart cfg pg.state
  { state := s.state, calls := pg.calls ++ [s.next], requests := pg.requests ++ s.requests }

/-- The page after one event. -/
def Page.step (cfg : Config) (pg : Page) : Event → Page
  | .select t => { pg with state := { pg.state with iocType := t } }
  | .type v => { pg with state := { pg.state with iocValue := v } }
  | .pressEnter => pg.invoke cfg
  | .clickButton => if pg.state.isLoading then pg else pg.invoke cfg
  | .settle call res =>
    match pg.calls.get? call with
    | some (some inv) =>
      let s := resume cfg inv res pg.state
      { state := s.state, calls := pg.calls.set call s.next,
        requests := pg.requests ++ s.requests }
    | _ => pg

/-- The page after a sequence of events, from the freshly mounted `App`. -/
def Page.run (cfg : Config) (events : List Event) : Page :=
  events.foldl (Page.step cfg) { state := initialState, calls := [], requests := [] }

/-! ## Predicates of the specification -/

/-- The characters `String.prototype.trim` removes: the `WhiteSpace` and
`LineTerminator` code points of ECMAScript. -/
def isJsWhitespace (c : Char) : Bool :=
  c.toNat ∈ [0x9, 0xA, 0xB, 0xC, 0xD, 0x20, 0xA0, 0x1680, 0x2028, 0x2029, 0x202F, 0x205F,
    0x3000, 0xFEFF] || (decide (0x2000 ≤ c.toNat) && decide (c.toNat ≤ 0x200A))

/-- A value that is non-empty and consists only of whitespace. -/
def isWhitespaceOnly (s : String) : Bool :=
  s != "" && s.data.all isJsWhitespace

/-- The number of items of an array, `none` for any other value. -/
def arrayLength : JSValue → Option Nat
  | .array items => some items.length
  | _ => none

/-- The number of items of the array under field `f` of `v`. -/
def fieldLength (v : JSValue) (f : Field) : Option Nat :=
  match getProp v f with
  | .ok a => arrayLength a
  | .error _ => none

/-- The body of a fetch that succeeded: the promise fulfilled, the status was
in 200-299 and `json()` parsed; `none` for every failure. -/
def fetchedBody : FetchResult → Option JSValue
  | .ok { status := s, json := .ok body } =>
    if Response.ok { status := s, json := .ok body } then some body else none
  | _ => none

/-- The values on which every property read throws: `undefined` and `null`. -/
def isNullish : JSValue → Bool
  | .undefined => true
  | .null => true
  | _ => false

/-- The `id` of a record: its own property `id`, `undefined` when it has none. -/
def recordId : JSValue → JSValue
  | .object fields => (fields.lookup "id").getD .undefined
  | _ => .undefined

/-- The graph-walk body answered for the query `1.1.1.1` in the worked race. -/
def graphA : JSValue :=
  .object [("nodes", .array [.object [("data", .object
    [("id", .string "a"), ("address", .string "1.1.1.1")])]]), ("edges", .array [])]

/-- The graph-walk body answered for the query `2.2.2.2` in the worked race. -/
def graphB : JSValue :=
  .object [("nodes", .array [.object [("data", .object
    [("id", .string "b"), ("address", .string "2.2.2.2")])]]), ("edges", .array [])]

/-- The log-search body answered for the query `1.1.1.1` in the worked race. -/
def logsA : JSValue := .array [.object [("id", .string "log-a")]]

/-- The log-search body answered for the query `2.2.2.2` in the worked race. -/
def logsB : JSValue := .array [.object [("id", .string "log-b")]]

/-- The worked race: investigation A (`1.1.1.1`) is started, investigation B
(`2.2.2.2`) is started with Enter while A is loading, both fetches of B
settle, then both fetches of A settle. -/
def raceEvents : List Event :=
  [.type "1.1.1.1", .pressEnter, .type "2.2.2.2", .pressEnter,
   .settle 1 (.ok { status := 200, json := .ok graphB }),
   .settle 1 (.ok { status := 200, json := .ok logsB }),
   .settle 0 (.ok { status := 200, json := .ok graphA }),
   .settle 0 (.ok { status := 200, json := .ok logsA })]

/-- A configuration used in the worked examples. -/
def exampleConfig : Config := { apiUrl := "https://cti.example", apiKey := "k" }

/-! ## Lemmas -/

theorem append_ne_empty (p x : String) (hp : p.length ≠ 0) : p ++ x ≠ "" := by
  intro h
  have h2 := congrArg String.length h
  simp at h2
  exact hp h2.1

theorem graphFailedMessage_ne_empty (s : Nat) : graphFailedMessage s ≠ "" :=
  append_ne_empty _ _ (by decide)

theorem logsFailedMessage_ne_empty (s : Nat) : logsFailedMessage s ≠ "" :=
  append_ne_empty _ _ (by decide)

theorem catchFinally_of_ne_empty (m : String) (st : AppState) (h : m ≠ "") :
    catchFinally m st = { st with error := m, isLoading := false } := by
  simp [catchFinally, h]

theorem catchFinally_error_ne_empty (m : String) (st : AppState) :
    (catchFinally m st).error ≠ "" := by
  by_cases h : m = ""
  · simp [catchFinally, h, unknownErrorMessage]
  · simp [catchFinally, h]

theorem renderLog_of_not_nullish (stringify : JSValue → String) (r : JSValue)
    (h : isNullish r = false) :
    renderLog stringify r = .ok (.pre (recordId r) (stringify r)) := by
  cases r <;> simp_all [renderLog, getProp, recordId, isNullish, Field.key, bind, Except.bind,
    pure, Except.pure]

theorem mapM_renderLog (stringify : JSValue → String) (logs : List JSValue)
    (h : ∀ r ∈ logs, isNullish r = false) :
    logs.mapM (renderLog stringify) =
      .ok (logs.map fun r => LogElement.pre (recordId r) (stringify r)) := by
  rw [← List.mapM'_eq_mapM]
  induction logs with
  | nil => rfl
  | cons r rest ih =>
    have hr := renderLog_of_not_nullish stringify r (h r (List.mem_cons_self _ _))
    have hrest := ih (fun x hx => h x (List.mem_cons_of_mem _ hx))
    simp [List.mapM'_cons, hr, hrest, bind, Except.bind, pure, Except.pure]

/-! ## Theorems -/

/-- C1: with an empty indicator value, from any prior state and whatever the
network would answer, `handleInvestigate` fetches nothing (the call returns at
once, no URL is requested) and only sets `error` to the non-empty validation
message `Please enter an indicator value to investigate.`. -/
theorem handleInvestigate_empty_value (cfg : Config) (graph logs : FetchResult) (st : AppState)
    (h : st.iocValue = "") :
    handleInvestigate cfg graph logs st = ({ st with error := validationMessage }, []) ∧
    (handleInvestigateStart cfg st).next = none ∧
    (handleInvestigateStart cfg st).requests = [] ∧
    validationMessage = "Please enter an indicator value to investigate." ∧
    validationMessage ≠ "" := by
  refine ⟨?_, ?_, ?_, rfl, by decide⟩ <;> simp [handleInvestigate, handleInvestigateStart, h]

theorem handleInvestigate_empty_value_witness :
    initialState.iocValue = "" ∧
    handleInvestigate exampleConfig (.error "offline") (.error "offline") initialState =
      ({ initialState with error := validationMessage }, []) :=
  ⟨rfl, (handleInvestigate_empty_value exampleConfig (.error "offline") (.error "offline")
    initialState rfl).1⟩

/-- C2 (as stated, refuted): with the value `" "` the handler does not reject;
it clears `error`, sets `isLoading` and fetches the graph-walk URL. -/
theorem whitespace_value_is_fetched :
    isWhitespaceOnly " " = true ∧
    (handleInvestigateStart exampleConfig { initialState with iocValue := " " }).requests =
      ["https://cti.example/api/graph/walk?type=ip&value= &code=k"] ∧
    (handleInvestigateStart exampleConfig { initialState with iocValue := " " }).state.error = "" ∧
    (handleInvestigateStart exampleConfig { initialState with iocValue := " " }).state.isLoading
      = true := by
  refine ⟨by decide, by decide, by decide, by decide⟩

/-- C2 (amended): a non-empty value made only of whitespace is accepted like any
other non-empty value: the handler fetches the graph-walk URL built from it,
suspends on that fetch, clears `error` and sets `isLoading`. -/
theorem whitespace_value_accepted (cfg : Config) (st : AppState)
    (h : isWhitespaceOnly st.iocValue = true) :
    (handleInvestigateStart cfg st).requests = [graphUrl cfg st.iocType st.iocValue] ∧
    (handleInvestigateStart cfg st).next =
      some { iocType := st.iocType, iocValue := st.iocValue, awaiting := .graph } ∧
    (handleInvestigateStart cfg st).state.error = "" ∧
    (handleInvestigateStart cfg st).state.isLoading = true := by
  have hne : st.iocValue ≠ "" := by
    simp [isWhitespaceOnly] at h
    exact h.1
  simp [handleInvestigateStart, hne]

theorem whitespace_value_accepted_witness :
    (handleInvestigateStart exampleConfig { initialState with iocValue := " \t" }).state.error = "" :=
  (whitespace_value_accepted exampleConfig { initialState with iocValue := " \t" }
    (by decide)).2.2.1

/-- C7: with a non-empty indicator value, from any prior state, the handler
reaches its first `await` (the graph-walk fetch is pending, no response has been
consumed) with `graphData` the empty model, `logs` the empty list, `error`
the empty string and `isLoading` true; the other cells are untouched. -/
theorem handleInvestigateStart_clears (cfg : Config) (st : AppState) (h : st.iocValue ≠ "") :
    (handleInvestigateStart cfg st).state =
      { st with graphData := emptyGraph, logs := .array [], error := "", isLoading := true } ∧
    emptyGraph = .object [("nodes", .array []), ("edges", .array [])] ∧
    (handleInvestigateStart cfg st).next =
      some { iocType := st.iocType, iocValue := st.iocValue, awaiting := .graph } := by
  simp [handleInvestigateStart, h, emptyGraph]

theorem handleInvestigateStart_clears_witness :
    (handleInvestigateStart exampleConfig
      { iocType := "ip", iocValue := "10.0.0.1",
        graphData := .object [("nodes", .array [.object [("data", .object [("id", .string "a")])]])],
        logs := .array [.object [("id", .string "l1")]], isLoading := false,
        error := "Graph API failed with status: 500" }).state =
      { iocType := "ip", iocValue := "10.0.0.1", graphData := emptyGraph, logs := .array [],
        isLoading := true, error := "" } :=
  (handleInvestigateStart_clears exampleConfig
      { iocType := "ip", iocValue := "10.0.0.1",
        graphData := .object [("nodes", .array [.object [("data", .object [("id", .string "a")])]])],
        logs := .array [.object [("id", .string "l1")]], isLoading := false,
        error := "Graph API failed with status: 500" } (by decide)).1

/-- C3: with a non-empty indicator value, if the graph-walk fetch answers with
a 2xx status and body `G` and the log-search fetch answers with a 2xx status
and body `L`, the completed handler leaves `graphData = G`, `logs = L`,
`error = ""` and `isLoading = false` (the other cells untouched), having
fetched the graph-walk URL and then the log-search URL.  In particular a body
with 3 nodes and 2 edges and a log body with 5 records give lengths 3, 2, 5. -/
theorem handleInvestigate_success (cfg : Config) (st : AppState) (sg sl : Nat) (G L : JSValue)
    (h : st.iocValue ≠ "") (hg : 200 ≤ sg ∧ sg ≤ 299) (hl : 200 ≤ sl ∧ sl ≤ 299) :
    handleInvestigate cfg (.ok { status := sg, json := .ok G }) (.ok { status := sl, json := .ok L })
        st =
      ({ st with graphData := G, logs := L, error := "", isLoading := false },
       [graphUrl cfg st.iocType st.iocValue, logsUrl cfg st.iocValue]) ∧
    (fieldLength G .nodes = some 3 → fieldLength G .edges = some 2 → arrayLength L = some 5 →
      fieldLength (handleInvestigate cfg (.ok { status := sg, json := .ok G })
        (.ok { status := sl, json := .ok L }) st).1.graphData .nodes = some 3 ∧
      fieldLength (handleInvestigate cfg (.ok { status := sg, json := .ok G })
        (.ok { status := sl, json := .ok L }) st).1.graphData .edges = some 2 ∧
      arrayLength (handleInvestigate cfg (.ok { status := sg, json := .ok G })
        (.ok { status := sl, json := .ok L }) st).1.logs = some 5) := by
  have key : handleInvestigate cfg (.ok { status := sg, json := .ok G })
      (.ok { status := sl, json := .ok L }) st =
      ({ st with graphData := G, logs := L, error := "", isLoading := false },
       [graphUrl cfg st.iocType st.iocValue, logsUrl cfg st.iocValue]) := by
    simp [handleInvestigate, handleInvestigateStart, resume, resumeGraph, resumeLogs,
      Response.ok, h, hg, hl]
  refine ⟨key, ?_⟩
  rw [key]
  intro h1 h2 h3
  exact ⟨h1, h2, h3⟩

theorem handleInvestigate_success_witness :
    fieldLength (handleInvestigate exampleConfig
        (.ok { status := 200, json := .ok (.object
          [("nodes", .array [.null, .null, .null]), ("edges", .array [.null, .null])]) })
        (.ok { status := 200, json := .ok (.array [.null, .null, .null, .null, .null]) })
        { initialState with iocValue := "10.0.0.1" }).1.graphData .nodes = some 3 :=
  ((handleInvestigate_success exampleConfig { initialState with iocValue := "10.0.0.1" } 200 200
      (.object [("nodes", .array [.null, .null, .null]), ("edges", .array [.null, .null])])
      (.array [.null, .null, .null, .null, .null])
      (by decide) (by decide) (by decide)).2 (by decide) (by decide) (by decide)).1

/-- C4: with a non-empty indicator value and a status `s` outside 200-299:
if the graph-walk fetch answers with status `s`, then whatever the log search
would answer the handler ends with `error` equal to
`Graph API failed with status: s`, `logs` empty and `isLoading` false, and the
log search is never fetched; if the graph walk succeeds and the log-search
fetch answers with status `s`, the handler ends with `error` equal to
`Log Search API failed with status: s` and `isLoading` false. -/
theorem handleInvestigate_failed_status (cfg : Config) (st : AppState) (s : Nat)
    (h : st.iocValue ≠ "") (hs : ¬ (200 ≤ s ∧ s ≤ 299)) :
    (∀ (body : Except String JSValue) (logs : FetchResult),
      (handleInvestigate cfg (.ok { status := s, json := body }) logs st).1.error =
        "Graph API failed with status: " ++ toString s ∧
      (handleInvestigate cfg (.ok { status := s, json := body }) logs st).1.logs = .array [] ∧
      (handleInvestigate cfg (.ok { status := s, json := body }) logs st).1.isLoading = false ∧
      (handleInvestigate cfg (.ok { status := s, json := body }) logs st).2 =
        [graphUrl cfg st.iocType st.iocValue]) ∧
    (∀ (sg : Nat) (G : JSValue) (body : Except String JSValue), 200 ≤ sg ∧ sg ≤ 299 →
      (handleInvestigate cfg (.ok { status := sg, json := .ok G })
        (.ok { status := s, json := body }) st).1.error =
        "Log Search API failed with status: " ++ toString s ∧
      (handleInvestigate cfg (.ok { status := sg, json := .ok G })
        (.ok { status := s, json := body }) st).1.isLoading = false) := by
  have hs' : (decide (200 ≤ s) && decide (s ≤ 299)) = false := by
    simpa using hs
  constructor
  · intro body logs
    have hm := graphFailedMessage_ne_empty s
    simp [handleInvestigate, handleInvestigateStart, resume, resumeGraph, Response.ok, h, hs',
      catchFinally_of_ne_empty _ _ hm]
    rfl
  · intro sg G body hsg
    have hm := logsFailedMessage_ne_empty s
    simp [handleInvestigate, handleInvestigateStart, resume, resumeGraph, resumeLogs,
      Response.ok, h, hs', hsg, catchFinally_of_ne_empty _ _ hm]
    rfl

theorem handleInvestigate_failed_status_witness :
    (handleInvestigate exampleConfig (.ok { status := 500, json := .error "Unexpected token" })
      (.ok { status := 200, json := .ok (.array [.object [("id", .string "l1")]]) })
      { initialState with iocValue := "10.0.0.1" }).1.error =
        "Graph API failed with status: 500" :=
  ((handleInvestigate_failed_status exampleConfig { initialState with iocValue := "10.0.0.1" } 500
    (by decide) (by decide)).1 (.error "Unexpected token")
    (.ok { status := 200, json := .ok (.array [.object [("id", .string "l1")]]) })).1

/-- C5 (as stated, refuted): the graph walk succeeds with a one-node graph and
the log search answers 500; the handler ends with a non-empty `error` while
`graphData` still holds the one-node graph, which is not the empty model. -/
theorem graph_kept_on_log_failure :
    (handleInvestigate exampleConfig
      (.ok { status := 200, json := .ok (.object
        [("nodes", .array [.object [("data", .object [("id", .string "a")])]]),
         ("edges", .array [])]) })
      (.ok { status := 500, json := .error "" })
      { initialState with iocValue := "10.0.0.1" }).1.error =
        "Log Search API failed with status: 500" ∧
    (handleInvestigate exampleConfig
      (.ok { status := 200, json := .ok (.object
        [("nodes", .array [.object [("data", .object [("id", .string "a")])]]),
         ("edges", .array [])]) })
      (.ok { status := 500, json := .error "" })
      { initialState with iocValue := "10.0.0.1" }).1.graphData =
        .object [("nodes", .array [.object [("data", .object [("id", .string "a")])]]),
          ("edges", .array [])] ∧
    fieldLength (handleInvestigate exampleConfig
      (.ok { status := 200, json := .ok (.object
        [("nodes", .array [.object [("data", .object [("id", .string "a")])]]),
         ("edges", .array [])]) })
      (.ok { status := 500, json := .error "" })
      { initialState with iocValue := "10.0.0.1" }).1.graphData .nodes = some 1 := by
  refine ⟨by decide, rfl, by decide⟩

/-- C5 (amended): when one call of the handler with a non-empty value has run
to completion and `error` is non-empty, `logs` is the empty list, `isLoading`
is false, and `graphData` is the empty model if the graph walk failed but the
graph-walk body itself if the graph walk succeeded (and the log search then
failed).  With an empty value the handler leaves `graphData` and `logs` as
they were. -/
theorem failed_state_shape (cfg : Config) (graph logs : FetchResult) (st : AppState) :
    (st.iocValue ≠ "" → (handleInvestigate cfg graph logs st).1.error ≠ "" →
      (handleInvestigate cfg graph logs st).1.logs = .array [] ∧
      (handleInvestigate cfg graph logs st).1.isLoading = false ∧
      (handleInvestigate cfg graph logs st).1.graphData =
        (match fetchedBody graph with
          | some G => G
          | none => emptyGraph)) ∧
    (st.iocValue = "" →
      (handleInvestigate cfg graph logs st).1.graphData = st.graphData ∧
      (handleInvestigate cfg graph logs st).1.logs = st.logs) := by
  constructor
  · intro h
    rcases graph with gm | ⟨sg, gj⟩
    · intro _
      simp [handleInvestigate, handleInvestigateStart, resume, resumeGraph, h, catchFinally,
        fetchedBody]
    · by_cases hok : (decide (200 ≤ sg) && decide (sg ≤ 299)) = true
      · rcases gj with gm | G
        · intro _
          simp [handleInvestigate, handleInvestigateStart, resume, resumeGraph, h, catchFinally,
            fetchedBody, Response.ok, hok]
        · rcases logs with lm | ⟨sl, lj⟩
          · intro _
            simp [handleInvestigate, handleInvestigateStart, resume, resumeGraph, resumeLogs, h,
              catchFinally, fetchedBody, Response.ok, hok]
          · by_cases hlok : (decide (200 ≤ sl) && decide (sl ≤ 299)) = true
            · rcases lj with lm | L
              · intro _
                simp [handleInvestigate, handleInvestigateStart, resume, resumeGraph, resumeLogs,
                  h, catchFinally, fetchedBody, Response.ok, hok, hlok]
              · intro herr
                simp [handleInvestigate, handleInvestigateStart, resume, resumeGraph, resumeLogs,
                  h, Response.ok, hok, hlok] at herr
            · intro _
              simp [handleInvestigate, handleInvestigateStart, resume, resumeGraph, resumeLogs,
                h, catchFinally, fetchedBody, Response.ok, hok, hlok]
      · intro _
        rcases gj with gm | G <;>
        simp [handleInvestigate, handleInvestigateStart, resume, resumeGraph, h, catchFinally,
          fetchedBody, Response.ok, hok]
  · intro h
    simp [handleInvestigate, handleInvestigateStart, h]

theorem failed_state_shape_witness :
    (handleInvestigate exampleConfig (.error "Failed to fetch") (.error "Failed to fetch")
      { initialState with iocValue := "10.0.0.1" }).1.logs = .array [] :=
  ((failed_state_shape exampleConfig (.error "Failed to fetch") (.error "Failed to fetch")
    { initialState with iocValue := "10.0.0.1" }).1 (by decide) (by decide)).1

/-- C6 (the code at the failing input): investigation A is started, B is
started with Enter while A is loading (the button, gated on `isLoading`, would
not have started it), B's responses arrive and then A's.  After B's responses
the page shows B's results; after A's graph it shows A's graph beside B's
logs; at the end it shows A's graph and A's logs although the current query
is B's. -/
theorem stale_response_overwrites :
    (Page.run exampleConfig (raceEvents.take 4)).state.isLoading = true ∧
    (Page.run exampleConfig (raceEvents.take 4)).calls.length = 2 ∧
    (Page.run exampleConfig
      [.type "1.1.1.1", .pressEnter, .type "2.2.2.2", .clickButton]).calls.length = 1 ∧
    (Page.run exampleConfig (raceEvents.take 6)).state.graphData = graphB ∧
    (Page.run exampleConfig (raceEvents.take 6)).state.logs = logsB ∧
    (Page.run exampleConfig (raceEvents.take 7)).state.graphData = graphA ∧
    (Page.run exampleConfig (raceEvents.take 7)).state.logs = logsB ∧
    (Page.run exampleConfig raceEvents).state.iocValue = "2.2.2.2" ∧
    (Page.run exampleConfig raceEvents).state.graphData = graphA ∧
    (Page.run exampleConfig raceEvents).state.logs = logsA ∧
    (Page.run exampleConfig raceEvents).state.error = "" ∧
    (Page.run exampleConfig raceEvents).state.isLoading = false ∧
    (Page.run exampleConfig raceEvents).requests =
      ["https://cti.example/api/graph/walk?type=ip&value=1.1.1.1&code=k",
       "https://cti.example/api/graph/walk?type=ip&value=2.2.2.2&code=k",
       "https://cti.example/api/logs/search?term=2.2.2.2&code=k",
       "https://cti.example/api/logs/search?term=1.1.1.1&code=k"] := by
  refine ⟨by decide, by decide, by decide, rfl, rfl, rfl, rfl, by decide, rfl, rfl, by decide,
    by decide, by decide⟩

/-- C8 (as stated, refuted): on the node data `{id: "n1", address: ""}` the
field `address` is present (it holds the empty string), yet the label is the
`id`, `"n1"`. -/
theorem label_skips_empty_address :
    getProp (.object [("id", .string "n1"), ("address", .string "")]) .address =
      .ok (.string "") ∧
    label (.object [("id", .string "n1"), ("address", .string "")]) = .ok (.string "n1") := by
  refine ⟨rfl, rfl⟩

/-- C8 (amended): for every node data object the label is the first truthy
field in the order `address`, `hostname`, `hash_sha256` (a field that is
absent, or holds `''`, `0`, `false` or `null`, is passed over), and the value
of `id` when none of the three is truthy.  The node `{id: "n1", address:
"1.2.3.4"}` is labelled `"1.2.3.4"` and the node `{id: "n2"}` is labelled
`"n2"`. -/
theorem label_first_truthy (fields : List (String × JSValue)) :
    (truthy ((fields.lookup "address").getD .undefined) = true →
      label (.object fields) = .ok ((fields.lookup "address").getD .undefined)) ∧
    (truthy ((fields.lookup "address").getD .undefined) = false →
      truthy ((fields.lookup "hostname").getD .undefined) = true →
      label (.object fields) = .ok ((fields.lookup "hostname").getD .undefined)) ∧
    (truthy ((fields.lookup "address").getD .undefined) = false →
      truthy ((fields.lookup "hostname").getD .undefined) = false →
      truthy ((fields.lookup "hash_sha256").getD .undefined) = true →
      label (.object fields) = .ok ((fields.lookup "hash_sha256").getD .undefined)) ∧
    (truthy ((fields.lookup "address").getD .undefined) = false →
      truthy ((fields.lookup "hostname").getD .undefined) = false →
      truthy ((fields.lookup "hash_sha256").getD .undefined) = false →
      label (.object fields) = .ok ((fields.lookup "id").getD .undefined)) ∧
    label (.object [("id", .string "n1"), ("address", .string "1.2.3.4")]) =
      .ok (.string "1.2.3.4") ∧
    label (.object [("id", .string "n2")]) = .ok (.string "n2") := by
  refine ⟨?_, ?_, ?_, ?_, rfl, rfl⟩
  · intro h1
    simp [label, getProp, Field.key, bind, Except.bind, pure, Except.pure, h1]
  · intro h1 h2
    simp [label, getProp, Field.key, bind, Except.bind, pure, Except.pure, h1, h2]
  · intro h1 h2 h3
    simp [label, getProp, Field.key, bind, Except.bind, pure, Except.pure, h1, h2, h3]
  · intro h1 h2 h3
    simp [label, getProp, Field.key, bind, Except.bind, pure, Except.pure, h1, h2, h3]

theorem label_first_truthy_witness :
    label (.object [("id", .string "n3"), ("address", .string ""),
      ("hostname", .string "srv01")]) = .ok (.string "srv01") :=
  (label_first_truthy [("id", .string "n3"), ("address", .string ""),
    ("hostname", .string "srv01")]).2.1 (by decide) (by decide)

/-- C9 (as stated, refuted): the graph-walk body `{}` is stored as it is, so
the `graphData` handed to `GraphDisplay` has `nodes` and `edges` undefined;
and for the body `{nodes: [n]}` the effect of `GraphDisplay` constructs
Cytoscape with that object, whose `edges` is undefined. -/
theorem absent_fields_reach_renderer :
    (handleInvestigate exampleConfig (.ok { status := 200, json := .ok (.object []) })
      (.ok { status := 200, json := .ok (.array []) })
      { initialState with iocValue := "10.0.0.1" }).1.graphData = .object [] ∧
    getProp (handleInvestigate exampleConfig (.ok { status := 200, json := .ok (.object []) })
      (.ok { status := 200, json := .ok (.array []) })
      { initialState with iocValue := "10.0.0.1" }).1.graphData .nodes = .ok .undefined ∧
    getProp (handleInvestigate exampleConfig (.ok { status := 200, json := .ok (.object []) })
      (.ok { status := 200, json := .ok (.array []) })
      { initialState with iocValue := "10.0.0.1" }).1.graphData .edges = .ok .undefined ∧
    GraphDisplay (fun _ => false) true
      (handleInvestigate exampleConfig
        (.ok { status := 200, json := .ok (.object
          [("nodes", .array [.object [("data", .object [("id", .string "a")])]])]) })
        (.ok { status := 200, json := .ok (.array []) })
        { initialState with iocValue := "10.0.0.1" }).1.graphData =
      .ok (some (.object [("nodes", .array [.object [("data", .object [("id", .string "a")])]])])) ∧
    getProp (.object [("nodes", .array [.object [("data", .object [("id", .string "a")])]])])
      .edges = .ok .undefined := by
  refine ⟨rfl, rfl, rfl, rfl, rfl⟩

/-- C9 (amended): with a non-empty value, a successful graph-walk body `G` is
stored in `graphData` exactly as received, whatever the log search answers
(nothing is added for an absent `nodes` or `edges`).  The renderer is what
tolerates the absence: the effect of `GraphDisplay` constructs no Cytoscape
instance when `nodes` is absent, `null` or an empty array, and when it does
construct one it passes the `graphData` prop unchanged. -/
theorem graph_body_stored_verbatim (cfg : Config) (st : AppState) (sg : Nat) (G : JSValue)
    (logs : FetchResult) (h : st.iocValue ≠ "") (hg : 200 ≤ sg ∧ sg ≤ 299) :
    (handleInvestigate cfg (.ok { status := sg, json := .ok G }) logs st).1.graphData = G ∧
    (∀ (gtZero : JSValue → Bool) (mounted : Bool) (fields : List (String × JSValue)),
      fields.lookup "nodes" = none ∨ fields.lookup "nodes" = some .null ∨
        fields.lookup "nodes" = some (.array []) →
      GraphDisplay gtZero mounted (.object fields) = .ok none) ∧
    (∀ (gtZero : JSValue → Bool) (mounted : Bool) (D e : JSValue),
      GraphDisplay gtZero mounted D = .ok (some e) → e = D) := by
  refine ⟨?_, ?_, ?_⟩
  · rcases logs with lm | ⟨sl, lj⟩
    · simp [handleInvestigate, handleInvestigateStart, resume, resumeGraph, resumeLogs, h,
        catchFinally, Response.ok, hg]
    · by_cases hlok : (decide (200 ≤ sl) && decide (sl ≤ 299)) = true
      · rcases lj with lm | L <;>
        simp [handleInvestigate, handleInvestigateStart, resume, resumeGraph, resumeLogs, h,
          catchFinally, Response.ok, hg, hlok]
      · simp [handleInvestigate, handleInvestigateStart, resume, resumeGraph, resumeLogs, h,
          catchFinally, Response.ok, hg, hlok]
  · intro gtZero mounted fields hcase
    rcases hcase with hn | hn | hn <;>
    simp [GraphDisplay, getProp, Field.key, hn, truthy, lengthGtZero, bind, Except.bind, pure,
      Except.pure]
  · intro gtZero mounted D e hD
    simp only [GraphDisplay, bind, Except.bind, pure, Except.pure] at hD
    split at hD
    · cases hD
    · split at hD
      · cases hD
      · split at hD
        · cases hD
        · split at hD
          · cases hD
          · split at hD
            · cases hD
            · cases hD
              rfl

theorem graph_body_stored_verbatim_witness :
    (handleInvestigate exampleConfig (.ok { status := 200, json := .ok (.object []) })
      (.error "Failed to fetch") { initialState with iocValue := "10.0.0.1" }).1.graphData =
      .object [] :=
  (graph_body_stored_verbatim exampleConfig { initialState with iocValue := "10.0.0.1" } 200
    (.object []) (.error "Failed to fetch") (by decide) (by decide)).1

/-- C10: `LogViewer` is a projection of its list.  For the empty list it
renders exactly the placeholder paragraph `No logs found for this indicator.`
and nothing else.  For a non-empty list of records it renders, in input order,
one `pre` per record, keyed by that record's `id` and showing that record's
JSON text, and no placeholder; the number of elements is the length of the
list. -/
theorem LogViewer_projection (stringify : JSValue → String) :
    LogViewer stringify [] = .ok [.p "No logs found for this indicator."] ∧
    ∀ logs : List JSValue, logs ≠ [] → (∀ r ∈ logs, isNullish r = false) →
      LogViewer stringify logs =
        .ok (logs.map fun r => LogElement.pre (recordId r) (stringify r)) ∧
      (logs.map fun r => LogElement.pre (recordId r) (stringify r)).length = logs.length ∧
      ∀ e ∈ (logs.map fun r => LogElement.pre (recordId r) (stringify r)),
        ∃ r ∈ logs, e = .pre (recordId r) (stringify r) := by
  refine ⟨rfl, ?_⟩
  intro logs hne hrec
  refine ⟨?_, by simp, ?_⟩
  · have hpos : logs.length > 0 := List.length_pos.mpr hne
    unfold LogViewer
    rw [if_pos hpos]
    exact mapM_renderLog stringify logs hrec
  · intro e he
    rcases List.mem_map.mp he with ⟨r, hr, rfl⟩
    exact ⟨r, hr, rfl⟩

theorem LogViewer_projection_witness :
    LogViewer (fun _ => "{}") [.object [("id", .string "l1")], .object [("id", .string "l2")]] =
      .ok [.pre (.string "l1") "{}", .pre (.string "l2") "{}"] :=
  ((LogViewer_projection (fun _ => "{}")).2
    [.object [("id", .string "l1")], .object [("id", .string "l2")]]
    (by simp) (by simp [isNullish])).1

end CtiUi
